import Mathlib

/-!
# Verification of the assignment scoring and rating core (`judge/models/assignment.py`)

This file gives a shallow embedding, in Lean 4, of the operations of the
assignment model that the specification describes: the rating scheduler
`Assignment.rate`, the participation aggregator `recompute_results` /
`set_disqualified`, the time-window properties (`start`, `end_time`, `ended`,
`time_remaining`) of `AssignmentParticipation`, and the save-time validator
`Assignment.clean`.

Modelling conventions:
* Instants and durations are integers (an abstract tick count); `None` values
  of optional columns become `Option`.
* Python truthiness matters twice in the source and is embedded explicitly:
  a `timedelta` is falsy exactly when it is zero (`durTruthy`), and a
  `DateTimeField` value is falsy exactly when it is `None`.
* Django's `field__range=(a, b)` lookup translates to SQL `BETWEEN`, which is
  inclusive at both ends; the embedding of `rate` reflects that.
* Collaborator modules that are not part of this model file
  (`judge.assignment_format`, `judge.ratings`, the Lua label sandbox) are
  modelled from the specification as abstract parameters; each such
  definition carries a doc comment saying so.
-/

namespace MOJ

/-- Persisted columns of `Assignment` that enter the computations verified
here: the time window `[start_time, end_time)`, the optional per-participant
`time_limit`, and the `is_rated` flag.  The remaining columns (key, name,
visibility flags, scoreboard mode, …) are irrelevant to the rating scheduler
and the time-window resolver and are omitted.  `id` stands for the primary
key. -/
structure Assignment where
  id : Nat
  start_time : Int
  end_time : Int
  time_limit : Option Int
  is_rated : Bool
deriving DecidableEq, Repr

/-- A persisted `Rating` row.  The `assignment` foreign key is denormalised
into the embedded `Assignment` record, so that the queryset lookup
`assignment__end_time` is a plain field access. -/
structure Rating where
  user : Nat
  assignment : Assignment
  rank : Int
  rating : Int
  volatility : Int
  last_rated : Int
deriving DecidableEq, Repr

/-- The ordering `ORDER BY end_time` used by `Assignment.rate`. -/
def endLE (a b : Assignment) : Prop := a.end_time ≤ b.end_time

instance : DecidableRel endLE := fun a b => inferInstanceAs (Decidable (a.end_time ≤ b.end_time))

instance : IsTotal Assignment endLE := ⟨fun a b => Int.le_total a.end_time b.end_time⟩

instance : IsTrans Assignment endLE := ⟨fun _ _ _ hab hbc => le_trans hab hbc⟩

/-- `Assignment.rate` (source lines 388–394).  Inside one transaction it
(1) deletes every `Rating` row whose assignment's `end_time` lies in the
Django range `(self.end_time, self._now)` — SQL `BETWEEN`, inclusive at both
ends — and (2) iterates `rate_assignment` over every `is_rated` assignment
whose `end_time` lies in the same range, ordered by ascending `end_time`.

`rate_assignment` lives in `judge.ratings`, outside this model file, so the
embedding returns the post-delete `Rating` table together with the sequence
of assignments handed to `rate_assignment`, in invocation order.  The
database's `ORDER BY` is modelled by an insertion sort on `end_time`. -/
def Assignment.rate (self : Assignment) (now : Int) (assignments : List Assignment)
    (ratings : List Rating) : List Rating × List Assignment :=
  (ratings.filter fun r =>
      !(decide (self.end_time ≤ r.assignment.end_time) && decide (r.assignment.end_time ≤ now)),
   List.insertionSort endLE (assignments.filter fun a =>
      a.is_rated && decide (self.end_time ≤ a.end_time) && decide (a.end_time ≤ now)))

/-- One row of `AssignmentParticipation`.  `virtual = 0` is the live attempt,
`virtual = -1` a spectator, any other value the n-th virtual attempt.
`submissions` stands for the related `AssignmentSubmission` rows (an
uninterpreted payload the scoring format reads); the remaining fields are the persisted
columns used by the verified operations. -/
structure AssignmentParticipation where
  assignment : Assignment
  user : Nat
  real_start : Int
  score : Int
  cumtime : Nat
  is_disqualified : Bool
  tiebreaker : Int
  virtual : Int
  format_data : Option Int
  submissions : List Int
deriving DecidableEq, Repr

namespace AssignmentParticipation

/-- `LIVE = 0` (source line 415). -/
def LIVE : Int := 0

/-- `SPECTATE = -1` (source line 416). -/
def SPECTATE : Int := -1

/-- `live` property: `virtual == LIVE`. -/
def live (p : AssignmentParticipation) : Bool := p.virtual == LIVE

/-- `spectate` property: `virtual == SPECTATE`. -/
def spectate (p : AssignmentParticipation) : Bool := p.virtual == SPECTATE

/-- Python truthiness of the optional duration `time_limit`: `None` is falsy
and so is a zero `timedelta`; any other duration is truthy.  The source tests
`if assignment.time_limit:` in the virtual branch of `end_time`. -/
def durTruthy : Option Int → Bool
  | none => false
  | some d => d != 0

/-- The `start` property (source lines 459–462):
`assignment.start_time if assignment.time_limit is None and (self.live or
self.spectate) else self.real_start`. -/
def start (p : AssignmentParticipation) : Int :=
  if p.assignment.time_limit.isNone && (p.live || p.spectate) then p.assignment.start_time
  else p.real_start

/-- The `end_time` property (source lines 464–475).  Note the asymmetry kept
from the source: the virtual branch tests the *truthiness* of `time_limit`
(`if assignment.time_limit:`), while the live branch tests `is None`. -/
def end_time (p : AssignmentParticipation) : Int :=
  let assignment := p.assignment
  if p.spectate then assignment.end_time
  else if p.virtual != 0 then
    if durTruthy assignment.time_limit then p.real_start + assignment.time_limit.getD 0
    else p.real_start + (assignment.end_time - assignment.start_time)
  else
    match assignment.time_limit with
    | none => assignment.end_time
    | some tl => min (p.real_start + tl) assignment.end_time

/-- The `ended` property (source lines 482–484):
`self.end_time is not None and self.end_time < self._now`.  In this model the
`end_time` property always yields a value (its fields are non-nullable
columns), so the `is not None` conjunct is identically true. -/
def ended (p : AssignmentParticipation) (now : Int) : Bool :=
  p.end_time < now

/-- The `time_remaining` property (source lines 486–490): returns
`end - now` when `end is not None and end >= now`, and Python's implicit
`None` otherwise. -/
def time_remaining (p : AssignmentParticipation) (now : Int) : Option Int :=
  let e := p.end_time
  if e ≥ now then some (e - now) else none

end AssignmentParticipation

/-- Modelled from the spec: a Scoring Format (the `judge.assignment_format`
module is not part of this model file).  Per §4.2, `update_participation`
"reads all non-excluded AssignmentSubmission rows for that participation's
problems, recomputes score and cumtime per the format's rules, writes
participation.score/cumtime/format_data" as a deterministic function of the
submissions.  The three rules are abstract functions of the submission
payload. -/
structure ScoringFormat where
  fscore : List Int → Int
  fcumtime : List Int → Nat
  fdata : List Int → Option Int

/-- Modelled from the spec: the effect of `format.update_participation(self)`
on the in-memory participation — it overwrites exactly `score`, `cumtime` and
`format_data` with the format's recomputation from the submissions. -/
def ScoringFormat.update_participation (fmt : ScoringFormat)
    (p : AssignmentParticipation) : AssignmentParticipation :=
  { p with
    score := fmt.fscore p.submissions
    cumtime := fmt.fcumtime p.submissions
    format_data := fmt.fdata p.submissions }

namespace AssignmentParticipation

/-- `recompute_results` (source lines 430–436), acting on the pair (in-memory
instance, persisted row).  Inside one transaction it runs
`self.assignment.format.update_participation(self)` — which per the spec also
persists the three recomputed fields — and then, if `self.is_disqualified`,
overwrites `score` with the sentinel `-9999` and persists *only* the `score`
field (`self.save(update_fields=['score'])`).  The second component of the
result is the persisted row, on which only the fields written by the two
saves change. -/
def recompute_results (fmt : ScoringFormat)
    (st : AssignmentParticipation × AssignmentParticipation) :
    AssignmentParticipation × AssignmentParticipation :=
  let mem := st.1
  let db := st.2
  let mem1 := fmt.update_participation mem
  let db1 := { db with
    score := mem1.score
    cumtime := mem1.cumtime
    format_data := mem1.format_data }
  if mem1.is_disqualified then
    let mem2 := { mem1 with score := -9999 }
    (mem2, { db1 with score := mem2.score })
  else
    (mem1, db1)

end AssignmentParticipation

/-! ## Transaction structure of `set_disqualified`

The atomicity claim about `set_disqualified` is about which writes are
committed together.  We embed the *commit structure* of the source: each
operation yields a sequence of steps, a step being either a
`transaction.atomic` block (all its writes commit together, at the end of the
block) or a bare write that commits on its own (Django autocommit). -/

/-- The individual database writes performed by `set_disqualified` and its
callees. -/
inductive DbWrite
  | formatUpdate
  | scoreOverride
  | ratingDelete
  | ratingRecompute
  | removeAssignment
  | bannedAdd
  | bannedRemove
deriving DecidableEq, Repr

/-- One commit unit: an explicit `transaction.atomic` block, or a single
autocommitted write. -/
inductive TxStep
  | atomicBlock (ws : List DbWrite)
  | autocommit (w : DbWrite)
deriving DecidableEq, Repr

/-- The writes a completed step leaves in the database. -/
def TxStep.writes : TxStep → List DbWrite
  | .atomicBlock ws => ws
  | .autocommit w => [w]

/-- Commit trace of `recompute_results` (source lines 430–436): one
`transaction.atomic` block holding the format update and, when the
participation is disqualified, the score-override save. -/
def recompute_results_steps (dq : Bool) : List TxStep :=
  [.atomicBlock ([.formatUpdate] ++ if dq then [.scoreOverride] else [])]

/-- Commit trace of `Assignment.rate` (source lines 388–394): one
`transaction.atomic` block holding the `Rating` delete and the re-rating
writes. -/
def rate_steps : List TxStep :=
  [.atomicBlock [.ratingDelete, .ratingRecompute]]

/-- Commit trace of `set_disqualified` (source lines 438–449), as a function
of the new flag value `dq`, whether the assignment `is_rated` and already has
`Rating` rows, and whether the participation is the user's current
assignment.  The method body itself is *not* wrapped in `transaction.atomic`:
only its callees `recompute_results` and `rate` open transactions, and the
`remove_assignment` / `banned_users` writes run autocommitted after them. -/
def set_disqualified_steps (dq ratedWithRatings isCurrent : Bool) : List TxStep :=
  recompute_results_steps dq
    ++ (if ratedWithRatings then rate_steps else [])
    ++ (if dq then
          (if isCurrent then [.autocommit .removeAssignment] else [])
            ++ [.autocommit .bannedAdd]
        else [.autocommit .bannedRemove])

/-- The writes that remain committed when execution fails during step `k`
(0-based) of a trace: every step before `k` has committed; the failing step —
whether an atomic block that rolls back or a write that never happens —
contributes nothing. -/
def committedWrites (t : List TxStep) (k : Nat) : List DbWrite :=
  (t.take k).flatMap TxStep.writes

/-- An operation runs atomically, in the sense of the spec's §5 contract,
when a failure at any step leaves none of the operation's writes
committed. -/
def atomicOp (t : List TxStep) : Prop :=
  ∀ k, k < t.length → committedWrites t k = []

instance (t : List TxStep) : Decidable (atomicOp t) :=
  inferInstanceAs (Decidable (∀ k, k < t.length → committedWrites t k = []))

/-! ## Save-time validation (`Assignment.clean`) -/

/-- Result of evaluating the label callable at index 0: Python values are
either strings or something else (`isinstance(label, str)` test). -/
inductive PyVal
  | str (s : String)
  | nonstr
deriving DecidableEq, Repr

/-- The errors `Assignment.clean` can raise (all `ValidationError` in the
source, distinguished here by message). -/
inductive CleanError
  | invalidWindow
  | configError
  | labelScriptError
  | labelNotString
deriving DecidableEq, Repr

/-- The unsaved `Assignment` instance `clean` validates.  At `clean` time the
two timestamps may still be unset (`None`), despite the columns being
non-nullable — the source's comment notes Django reports missing required
fields separately. -/
structure AssignmentDraft where
  start_time : Option Int
  end_time : Option Int
deriving DecidableEq, Repr

/-- The tail of `clean` after the window check (source lines 174–184):
`self.format_class.validate(self.format_config)` — modelled from the spec as
the abstract outcome `validateCfg` of the format's `validate` on this
draft's configuration, raising `ConfigError` on failure — then the index-0
label smoke test: a raised exception becomes `labelScriptError`, a non-string
return becomes `labelNotString`, and a string return passes.  The label
callable (format default or sandboxed Lua script) is likewise modelled from
the spec as its abstract outcome `labelAtZero`. -/
def labelAndFormatChecks (validateCfg : Except Unit Unit)
    (labelAtZero : Except Unit PyVal) : Except CleanError Unit :=
  match validateCfg with
  | .error _ => .error .configError
  | .ok _ =>
    match labelAtZero with
    | .error _ => .error .labelScriptError
    | .ok (.str _) => .ok ()
    | .ok .nonstr => .error .labelNotString

/-- `Assignment.clean` (source lines 170–184).  The window check is
`if self.start_time and self.end_time and self.start_time >= self.end_time:`
— a `datetime` is always truthy, so the guard holds exactly when both
timestamps are present and `start_time ≥ end_time`; only then is the
invalid-window `ValidationError` raised, and otherwise validation proceeds
to the format and label checks. -/
def Assignment.clean (validateCfg : Except Unit Unit) (labelAtZero : Except Unit PyVal)
    (d : AssignmentDraft) : Except CleanError Unit :=
  match d.start_time, d.end_time with
  | some s, some e =>
    if s ≥ e then .error .invalidWindow
    else labelAndFormatChecks validateCfg labelAtZero
  | _, _ => labelAndFormatChecks validateCfg labelAtZero

/-! ## Claim-shaped definitions (used to compare the source against the
specification's wording) -/

/-- The effective end exactly as claim C6 words it: `E` for a spectator;
`T + L` for a virtual participation whenever the time limit `L` is *set*
(present, zero included); `T + (E − S)` for a virtual participation when `L`
is unset; `E` for a live participation when `L` is unset; `min (T + L) E`
for a live participation when `L` is set. -/
def claimedEndTime (p : AssignmentParticipation) : Int :=
  let a := p.assignment
  if p.spectate then a.end_time
  else if p.virtual != 0 then
    match a.time_limit with
    | some l => p.real_start + l
    | none => p.real_start + (a.end_time - a.start_time)
  else
    match a.time_limit with
    | none => a.end_time
    | some l => min (p.real_start + l) a.end_time

/-- The effective end with the correction the source forces on claim C6: for
a virtual participation a *zero* time limit behaves like an unset one
(Python truthiness of `timedelta`), giving `T + (E − S)`; the other cases
are as the claim words them. -/
def amendedEndTime (p : AssignmentParticipation) : Int :=
  let a := p.assignment
  if p.spectate then a.end_time
  else if p.virtual != 0 then
    match a.time_limit with
    | some l => if l ≠ 0 then p.real_start + l else p.real_start + (a.end_time - a.start_time)
    | none => p.real_start + (a.end_time - a.start_time)
  else
    match a.time_limit with
    | none => a.end_time
    | some l => min (p.real_start + l) a.end_time

/-! ## Concrete sample data -/

/-- An assignment that ended at instant 0; the receiver of the sample
`rate()` calls. -/
def aSelf : Assignment := ⟨0, -10, 0, none, true⟩

/-- A rated assignment with `end_time = 3`. -/
def aEnd3a : Assignment := ⟨1, 0, 3, none, true⟩

/-- A second rated assignment with the same `end_time = 3`. -/
def aEnd3b : Assignment := ⟨2, 0, 3, none, true⟩

/-- A rated assignment with `end_time = 5`, the instant the sample `rate()`
calls use as `now`. -/
def aEnd5 : Assignment := ⟨3, 0, 5, none, true⟩

/-- A persisted `Rating` row belonging to `aEnd5`. -/
def r5 : Rating := ⟨7, aEnd5, 1, 1500, 100, 5⟩

/-- An assignment whose `time_limit` is a *zero* duration on the window
`[0, 100)`. -/
def aZeroLimit : Assignment := ⟨4, 0, 100, some 0, false⟩

/-- An assignment with window `[0, 100)` and no time limit. -/
def aNoLimit : Assignment := ⟨5, 0, 100, none, true⟩

/-- A virtual participation (attempt 1) on `aZeroLimit`, really started at
instant 10. -/
def pVirtualZeroLimit : AssignmentParticipation :=
  { assignment := aZeroLimit, user := 1, real_start := 10, score := 0, cumtime := 0,
    is_disqualified := false, tiebreaker := 0, virtual := 1, format_data := none,
    submissions := [] }

/-- A live participation on `aNoLimit`, really started at instant 7. -/
def pLive : AssignmentParticipation :=
  { assignment := aNoLimit, user := 2, real_start := 7, score := 0, cumtime := 0,
    is_disqualified := false, tiebreaker := 0, virtual := 0, format_data := none,
    submissions := [] }

/-! ## Claims -/

/-- Claim C1 counterexample.  The claim says a `Rating` row for an assignment
whose `end_time` equals the sampled `now` is deleted by *no* call, the delete
range being the closed-open `[A.end_time, now)`.  Here `aSelf.end_time = 0 ≤
5 = now`, the row `r5` belongs to an assignment with `end_time = 5 = now`,
and `rate` deletes it: Django's `__range` lookup is the inclusive SQL
`BETWEEN`. -/
theorem C1_counterexample :
    r5.assignment.end_time = 5 ∧ aSelf.end_time ≤ 5 ∧
      (Assignment.rate aSelf 5 [] [r5]).1 = [] := by
  decide

/-- Claim C1 (amended): `rate` first deletes exactly the `Rating` rows
belonging to assignments whose `end_time` lies in the *closed* range
`[A.end_time, now]` — both a row with `end_time = A.end_time` and one with
`end_time = now` are deleted by every call; a row survives exactly when its
assignment's `end_time` is outside that closed range. -/
theorem rate_deletes_closed_range (self : Assignment) (now : Int)
    (assignments : List Assignment) (ratings : List Rating) (r : Rating) :
    r ∈ (Assignment.rate self now assignments ratings).1 ↔
      r ∈ ratings ∧
        ¬(self.end_time ≤ r.assignment.end_time ∧ r.assignment.end_time ≤ now) := by
  simp [Assignment.rate, List.mem_filter]
  intro _
  omega

/-- Claim C2 counterexample.  The claim says the rating engine is invoked
exactly once per `is_rated` assignment with `end_time` in the closed-open
range `[A.end_time, now)`, in strictly ascending `end_time` order.  With
`now = 5` and the rated assignments ending at 5, 3 and 3, the actual
invocation sequence has end times `[3, 3, 5]`: it includes the assignment
ending exactly at `now` (inclusive `BETWEEN`), so it is not a permutation of
the claim's closed-open selection, and the two equal end times make the
order non-strict. -/
theorem C2_counterexample :
    ((Assignment.rate aSelf 5 [aEnd5, aEnd3b, aEnd3a] []).2.map Assignment.end_time
        = [3, 3, 5]) ∧
    ¬ (((Assignment.rate aSelf 5 [aEnd5, aEnd3b, aEnd3a] []).2.map
          Assignment.end_time).Pairwise (· < ·) ∧
        (Assignment.rate aSelf 5 [aEnd5, aEnd3b, aEnd3a] []).2.Perm
          ([aEnd5, aEnd3b, aEnd3a].filter fun a =>
            a.is_rated && decide (aSelf.end_time ≤ a.end_time) &&
              decide (a.end_time < 5))) := by
  decide

/-- Claim C2 (amended): after the delete phase the rating engine is invoked
exactly once per assignment that has `is_rated` set and `end_time` in the
*closed* range `[A.end_time, now]` (the invocation sequence is a permutation
of that selection), and the invocations occur in non-decreasing — strictly
ascending only when end times are distinct — order of `end_time`, so each
invocation can read the `Rating` rows written for earlier-ending
assignments. -/
theorem rate_invocations_sorted_closed_range (self : Assignment) (now : Int)
    (assignments : List Assignment) (ratings : List Rating) :
    (Assignment.rate self now assignments ratings).2.Perm
        (assignments.filter fun a =>
          a.is_rated && decide (self.end_time ≤ a.end_time) && decide (a.end_time ≤ now)) ∧
      (Assignment.rate self now assignments ratings).2.Sorted endLE :=
  ⟨List.perm_insertionSort endLE _, List.sorted_insertionSort endLE _⟩

/-- Claim C3 counterexample.  The claim says every side effect of a
`set_disqualified` call commits atomically — on any mid-operation failure
none of the call's writes persist.  For a disqualifying call on a rated
assignment with existing ratings by the user's current participation, the
commit trace has four independent commit units, and a failure during the
second (the `rate()` call) leaves the recompute writes already committed:
the method body opens no transaction of its own. -/
theorem C3_counterexample :
    ¬ atomicOp (set_disqualified_steps true true true) := by
  decide

/-- Claim C3 (amended): `set_disqualified` is not one atomic unit.  Its first
step, `recompute_results`, and the `rate()` step are each individually
atomic (a failure inside either persists nothing of that step), but the call
always consists of at least two separately committed steps, and a failure in
any step after the first leaves the recompute writes (the format update and,
when disqualifying, the score override) durably committed while the
remaining side effects never happen. -/
theorem set_disqualified_not_single_transaction (dq ratedWithRatings isCurrent : Bool) :
    atomicOp (recompute_results_steps dq) ∧
      atomicOp rate_steps ∧
      1 < (set_disqualified_steps dq ratedWithRatings isCurrent).length ∧
      committedWrites (set_disqualified_steps dq ratedWithRatings isCurrent) 1 =
        .formatUpdate :: (if dq then [.scoreOverride] else []) := by
  cases dq <;> cases ratedWithRatings <;> cases isCurrent <;> decide

/-- Claim C4: after `recompute_results`, the persisted participation row has
`score = -9999` when the in-memory participation is disqualified — regardless
of the score the scoring format computed — and the format's natural score
otherwise; `cumtime` and `format_data` always carry the format's
recomputation, and the persisted `is_disqualified` flag is untouched: the
disqualification override persists only the `score` field. -/
theorem recompute_results_disqualified_override (fmt : ScoringFormat)
    (mem db : AssignmentParticipation) :
    ((AssignmentParticipation.recompute_results fmt (mem, db)).2.score =
        if mem.is_disqualified then -9999 else fmt.fscore mem.submissions) ∧
      (AssignmentParticipation.recompute_results fmt (mem, db)).2.cumtime =
        fmt.fcumtime mem.submissions ∧
      (AssignmentParticipation.recompute_results fmt (mem, db)).2.format_data =
        fmt.fdata mem.submissions ∧
      (AssignmentParticipation.recompute_results fmt (mem, db)).2.is_disqualified =
        db.is_disqualified := by
  cases h : mem.is_disqualified <;>
    simp [AssignmentParticipation.recompute_results, ScoringFormat.update_participation, h]

/-- Claim C5: `recompute_results` is idempotent — a second invocation with
unchanged submissions and disqualification flag reproduces exactly the
in-memory and persisted state left by the first. -/
theorem recompute_results_idempotent (fmt : ScoringFormat)
    (st : AssignmentParticipation × AssignmentParticipation) :
    AssignmentParticipation.recompute_results fmt
        (AssignmentParticipation.recompute_results fmt st) =
      AssignmentParticipation.recompute_results fmt st := by
  obtain ⟨mem, db⟩ := st
  cases h : mem.is_disqualified <;>
    simp [AssignmentParticipation.recompute_results, ScoringFormat.update_participation, h]

/-- Claim C6 counterexample.  The claim says a virtual participation's
effective end is `real_start + time_limit` whenever the time limit is set.
On an assignment with window `[0, 100)` and time limit *set to the zero
duration*, a virtual participation really starting at 10 gets effective end
`10 + (100 − 0) = 110` from the source — `if assignment.time_limit:` treats
a zero `timedelta` as falsy — while the claim's reading gives `10 + 0 =
10`. -/
theorem C6_counterexample :
    pVirtualZeroLimit.assignment.time_limit = some 0 ∧
      pVirtualZeroLimit.end_time = 110 ∧
      claimedEndTime pVirtualZeroLimit = 10 ∧
      pVirtualZeroLimit.end_time ≠ claimedEndTime pVirtualZeroLimit := by
  decide

/-- Claim C6 (amended): the effective end is `E` for a spectator; for a
virtual participation, `T + L` when the time limit `L` is set and nonzero,
and `T + (E − S)` when `L` is unset *or zero* (a zero duration is falsy in
the source's truthiness test); `E` for a live participation when `L` is
unset; and `min (T + L) E` for a live participation when `L` is set (zero
included — the live branch tests `is None`, not truthiness). -/
theorem end_time_eq_amended (p : AssignmentParticipation) :
    p.end_time = amendedEndTime p := by
  rcases h : p.assignment.time_limit with _ | l
  · simp [AssignmentParticipation.end_time, amendedEndTime,
      AssignmentParticipation.durTruthy, h]
  · by_cases hl : l = 0 <;>
      simp [AssignmentParticipation.end_time, amendedEndTime,
        AssignmentParticipation.durTruthy, h, hl]

/-- Claim C7: the effective start is the assignment's `start_time` exactly in
the branch where the participation is live or spectating and the assignment
has no time limit configured, and is the participation's `real_start` in
every other case (any virtual participation, or any mode once a time limit —
zero included — is set). -/
theorem start_characterization (p : AssignmentParticipation) :
    (p.assignment.time_limit = none ∧ (p.live = true ∨ p.spectate = true) →
        p.start = p.assignment.start_time) ∧
      (p.assignment.time_limit ≠ none ∨ (p.live = false ∧ p.spectate = false) →
        p.start = p.real_start) := by
  rcases h' : p.assignment.time_limit with _ | l <;>
    cases hl : p.live <;> cases hs : p.spectate <;>
      simp [AssignmentParticipation.start, h', hl, hs]

/-- Claim C7 witness: the live participation `pLive` (no time limit) starts
at its assignment's `start_time`, and the virtual participation
`pVirtualZeroLimit` (time limit set) starts at its own `real_start`. -/
theorem start_characterization_witness :
    pLive.start = pLive.assignment.start_time ∧
      pVirtualZeroLimit.start = pVirtualZeroLimit.real_start :=
  ⟨(start_characterization pLive).1 (by decide),
   (start_characterization pVirtualZeroLimit).2 (by decide)⟩

/-- Claim C8: against a single sampled `now`, `ended` holds exactly when the
effective end (always defined in this model) is strictly earlier than `now`;
`time_remaining` is `some (end − now)` when the effective end is at or after
`now`, and absent — not zero — once the participation has ended. -/
theorem ended_time_remaining_spec (p : AssignmentParticipation) (now : Int) :
    (p.ended now = true ↔ p.end_time < now) ∧
      (p.end_time ≥ now → p.time_remaining now = some (p.end_time - now)) ∧
      (p.end_time < now → p.time_remaining now = none) := by
  refine ⟨by simp [AssignmentParticipation.ended], fun h => ?_, fun h => ?_⟩
  · simp [AssignmentParticipation.time_remaining, h]
  · simp [AssignmentParticipation.time_remaining, not_le.mpr h, le_of_lt h]

/-- Claim C8 witness: `pLive` has effective end 100, so at `now = 50` the
remaining time is `some 50` while at `now = 200` it is absent. -/
theorem ended_time_remaining_spec_witness :
    pLive.time_remaining 50 = some 50 ∧ pLive.time_remaining 200 = none :=
  ⟨(ended_time_remaining_spec pLive 50).2.1 (by decide),
   (ended_time_remaining_spec pLive 200).2.2 (by decide)⟩

/-- The validation tail after the window check can produce every error but
the invalid-window one. -/
theorem labelAndFormatChecks_ne_invalidWindow (vc : Except Unit Unit)
    (lz : Except Unit PyVal) :
    labelAndFormatChecks vc lz ≠ .error .invalidWindow := by
  rcases vc with _ | _ <;> rcases lz with _ | v
  · simp [labelAndFormatChecks]
  · simp [labelAndFormatChecks]
  · simp [labelAndFormatChecks]
  · cases v <;> simp [labelAndFormatChecks]

/-- Claim C9: when both timestamps are filled in, `clean` raises the
invalid-window `ValidationError` whenever `start_time ≥ end_time`, blocking
persistence; consequently an assignment that passes `clean` (the
precondition of being persisted) satisfies `start_time < end_time`. -/
theorem clean_invalid_window (vc : Except Unit Unit) (lz : Except Unit PyVal)
    (d : AssignmentDraft) (s e : Int)
    (hs : d.start_time = some s) (he : d.end_time = some e) :
    (s ≥ e → Assignment.clean vc lz d = .error .invalidWindow) ∧
      (Assignment.clean vc lz d = .ok () → s < e) := by
  obtain ⟨st, et⟩ := d
  cases hs
  cases he
  constructor
  · intro h
    simp [Assignment.clean, h]
  · intro h
    by_contra hlt
    have hge : s ≥ e := by omega
    simp [Assignment.clean, hge] at h

/-- Claim C9 witness: a draft with `start_time = 5 ≥ 3 = end_time` fails
`clean` with the invalid-window error. -/
theorem clean_invalid_window_witness :
    Assignment.clean (.ok ()) (.ok (.str "A")) ⟨some 5, some 3⟩ =
      .error .invalidWindow :=
  (clean_invalid_window (.ok ()) (.ok (.str "A")) ⟨some 5, some 3⟩ 5 3 rfl rfl).1
    (by decide)

/-- Claim C10: when `start_time` or `end_time` is missing, `clean` never
raises the invalid-window error — the comparison short-circuits — and
validation proceeds to (and returns exactly the outcome of) the format and
label checks. -/
theorem clean_missing_timestamp (vc : Except Unit Unit) (lz : Except Unit PyVal)
    (d : AssignmentDraft) (h : d.start_time = none ∨ d.end_time = none) :
    Assignment.clean vc lz d = labelAndFormatChecks vc lz ∧
      Assignment.clean vc lz d ≠ .error .invalidWindow := by
  have heq : Assignment.clean vc lz d = labelAndFormatChecks vc lz := by
    obtain ⟨st, et⟩ := d
    rcases h with h | h <;> cases h
    · cases et <;> rfl
    · cases st <;> rfl
  exact ⟨heq, heq ▸ labelAndFormatChecks_ne_invalidWindow vc lz⟩

/-- Claim C10 witness: a draft missing its `start_time` passes straight to
the format and label checks and does not produce the invalid-window
error. -/
theorem clean_missing_timestamp_witness :
    Assignment.clean (.ok ()) (.ok (.str "A")) ⟨none, some 3⟩ =
        labelAndFormatChecks (.ok ()) (.ok (.str "A")) ∧
      Assignment.clean (.ok ()) (.ok (.str "A")) ⟨none, some 3⟩ ≠
        .error .invalidWindow :=
  clean_missing_timestamp (.ok ()) (.ok (.str "A")) ⟨none, some 3⟩ (Or.inl rfl)

end MOJ
